import Mathlib

/-!
# Verification of the WARG ground-station telemetry link layer

Shallow embedding of the repository's telemetry link code:
* `app/util/Validator.js` — field-range validators,
* `models/TelemetryData` — the telemetry state model (headers, history, event dispatch),
* `app/connections/DataRelay.js` — link manager: frame dispatch, UDP discovery, discovery timeout,
* the picpilot `Commands` module — outbound command construction.

JavaScript runtime behaviour (truthiness, `Number(...)` coercion, `toString`,
`String.prototype.split`/`trim`, sloppy-mode `this` in plain-function
callbacks, the Node event loop's macrotask/microtask ordering) is embedded
explicitly; machine floats are modelled
by `Option ℚ` (`none` = NaN), which is exact on every value these claims touch.
-/

/-- A JavaScript number: `none` is NaN, `some q` an (exact) numeric value.
(JS uses IEEE doubles; every literal appearing in the verified claims is
exactly representable, so rationals are a faithful model here.) -/
abbrev JSNum := Option ℚ

/-- The JavaScript values that can reach this subsystem: `undefined`, `null`,
booleans, numbers, strings, and Buffers (modelled by their decoded text). -/
inductive JSVal where
  | undefined
  | null
  | bool (b : Bool)
  | num (x : JSNum)
  | str (s : String)
  | buf (s : String)
deriving DecidableEq, Repr

/-- JS truthiness: `!v` in the source is `truthy v = false`.
Falsy values: `undefined`, `null`, `false`, `NaN`, `0`, `""`. Objects
(Buffers) are always truthy. -/
def truthy : JSVal → Bool
  | .undefined => false
  | .null => false
  | .bool b => b
  | .num none => false
  | .num (some q) => decide (q ≠ 0)
  | .str s => decide (s ≠ "")
  | .buf _ => true

/-- Embeds `String.prototype.trim` on a character list: strip whitespace from both ends. -/
def jsTrimList (cs : List Char) : List Char :=
  ((cs.dropWhile Char.isWhitespace).reverse.dropWhile Char.isWhitespace).reverse

/-- Embeds `String.prototype.trim`. -/
def jsTrim (s : String) : String := ⟨jsTrimList s.toList⟩

/-- Embeds `String.prototype.split` on a single-character separator, over character
lists: `"a,b"` gives `[['a'],['b']]`, `""` gives `[[]]`. -/
def splitOnCharAux (sep : Char) : List Char → List (List Char)
  | [] => [[]]
  | c :: cs =>
    match splitOnCharAux sep cs with
    | [] => [[]]
    | g :: gs => if c = sep then [] :: g :: gs else (c :: g) :: gs

/-- Embeds `s.split(sep)` for a one-character separator. -/
def jsSplit (s : String) (sep : Char) : List String :=
  (splitOnCharAux sep s.toList).map String.mk

/-- Digit list to the natural number it denotes (most significant first). -/
def digitsToNat (ds : List Char) : Nat :=
  ds.foldl (fun a c => a * 10 + (c.toNat - '0'.toNat)) 0

/-- Embeds `Number(s)` on a string: trim, empty is 0, otherwise an optionally signed
decimal literal `[+|-] digits [. digits]`; anything else is NaN.
(Exponent/hex forms never occur in this subsystem's inputs.) -/
def jsStringToNumber (s : String) : JSNum :=
  let t := jsTrimList s.toList
  if t.isEmpty then some 0 else
  let sr : Int × List Char :=
    match t with
    | '-' :: cs' => (-1, cs')
    | '+' :: cs' => (1, cs')
    | _ => (1, t)
  let ids := sr.2.takeWhile Char.isDigit
  let rem := sr.2.dropWhile Char.isDigit
  match rem with
  | [] => if ids.isEmpty then none else some (mkRat (sr.1 * digitsToNat ids) 1)
  | '.' :: rem2 =>
    let fds := rem2.takeWhile Char.isDigit
    let rem3 := rem2.dropWhile Char.isDigit
    if !rem3.isEmpty then none
    else if ids.isEmpty && fds.isEmpty then none
    else some (mkRat (sr.1 * (digitsToNat ids * 10 ^ fds.length + digitsToNat fds))
                     (10 ^ fds.length))
  | _ => none

/-- Embeds `Number(v)`: the JS ToNumber coercion. `null` is 0, `undefined` is NaN,
booleans are 0/1, strings parse as decimal literals, objects are NaN. -/
def toNumber : JSVal → JSNum
  | .undefined => none
  | .null => some 0
  | .bool b => some (if b then 1 else 0)
  | .num x => x
  | .str s => jsStringToNumber s
  | .buf _ => none

/-- Global `isNaN(v)`: coerces with `Number` and tests for NaN. -/
def jsIsNaN (v : JSVal) : Bool := (toNumber v).isNone

/-- Decimal digits of the fraction `n / d` (with `n < d`), fuel-bounded. -/
def natFracDigits : Nat → Nat → Nat → String
  | 0, _, _ => ""
  | fuel + 1, n, d =>
    if n = 0 then ""
    else toString (n * 10 / d) ++ natFracDigits fuel (n * 10 % d) d

/-- JS number-to-string for the numbers this subsystem handles: sign, integer
part, and (when non-integral) a `.` followed by the fraction's digits. -/
def numToString : JSNum → String
  | none => "NaN"
  | some q =>
    let n := q.num.natAbs
    let d := q.den
    (if q < 0 then "-" else "") ++ toString (n / d) ++
      (if n % d = 0 then "" else "." ++ natFracDigits 40 (n % d) d)

/-- JS ToString coercion (as used by `data.toString()` and `+` on strings). -/
def jsToString : JSVal → String
  | .undefined => "undefined"
  | .null => "null"
  | .bool true => "true"
  | .bool false => "false"
  | .num x => numToString x
  | .str s => s
  | .buf s => s

namespace Validator

/-- Embeds `Validator.isValidNumber`: returns `true` when the value is neither
`undefined` nor `null` and `!isNaN(v)`; otherwise falls off the end of the
function and returns `undefined` (modelled as `none`). -/
def isValidNumber (v : JSVal) : Option Bool :=
  if v = .undefined then none
  else if v = .null then none
  else if jsIsNaN v then none
  else some true

/-- JS `>=` against a numeric literal: false when the left side is NaN. -/
def numGE (x : JSNum) (c : ℚ) : Bool :=
  match x with
  | none => false
  | some q => decide (c ≤ q)

/-- JS `<=` against a numeric literal: false when the left side is NaN. -/
def numLE (x : JSNum) (c : ℚ) : Bool :=
  match x with
  | none => false
  | some q => decide (q ≤ c)

/-- Embeds `Validator.isValidRoll`: `isValidNumber(roll) && Number(roll) >= -180 &&
Number(roll) <= 180` (the truthiness of `isValidNumber`'s `true`/`undefined`
result is `Option.getD false`). -/
def isValidRoll (v : JSVal) : Bool :=
  (isValidNumber v).getD false && numGE (toNumber v) (-180) && numLE (toNumber v) 180

/-- Embeds `Validator.isValidPitch`: same bounds as `isValidRoll`. -/
def isValidPitch (v : JSVal) : Bool :=
  (isValidNumber v).getD false && numGE (toNumber v) (-180) && numLE (toNumber v) 180

end Validator

namespace TelemetryData

/-- A Flight State Snapshot: a JS object mapping header names to the scalar
value tokens of one decoded data row, in insertion (header) order. -/
abbrev Snapshot := List (String × String)

/-- The `TelemetryData` singleton's mutable fields (`models/TelemetryData`):
`headers`, `received`, `current_state`, `state_history`, `sent`.
Timestamps are abstract clock readings (`Nat`). -/
structure TState where
  headers : List String
  received : List (Nat × String)
  current_state : Snapshot
  state_history : List Snapshot
  sent : List (Nat × String)
deriving DecidableEq, Repr

/-- The fresh `TelemetryData` instance: all fields empty. -/
def initTState : TState := ⟨[], [], [], [], []⟩

/-- Embeds `TelemetryData.setHeadersFromString`: split the string on commas, `trim()`
each token, and assign the result as the new `headers` array. -/
def setHeadersFromString (headers_string : String) (st : TState) : TState :=
  { st with headers := (jsSplit headers_string ',').map jsTrim }

/-- Modelled from the spec: `TelemetryData.setCurrentStateFromString` is not
among the provided sources (only its caller `DataRelay.parseData` is), so it
follows §4.2 of the spec: split the text on the field delimiter into
positional values, zip position-wise against the current Header List
(`mapping[header[i]] = value[i]`, the longer side's extras silently dropped);
the new snapshot becomes `current_state`, is appended to `state_history`, and
the raw (timestamp, text) pair is appended to `received`. -/
def setCurrentStateFromString (text : String) (t : Nat) (st : TState) : TState :=
  let values := jsSplit text ','
  let snapshot : Snapshot := st.headers.zip values
  { st with
      current_state := snapshot
      state_history := st.state_history ++ [snapshot]
      received := st.received ++ [(t, text)] }

end TelemetryData

namespace DataRelay

open TelemetryData

/-- What the `data` handler in `connectTCP` did with one inbound frame:
dropped it with `Logger.error`, parsed it as a header line (recording the
header list handed to `PacketParser.checkForMissingHeaders`), or parsed it
as a data line. -/
inductive HandlerAction where
  | droppedWithError
  | parsedHeaders (validatorArg : List String)
  | parsedData
deriving DecidableEq, Repr

/-- Embeds `parseHeaders` in `DataRelay.js`: store the headers via
`setHeadersFromString`, then pass `TelemetryData.getHeaders()` to the header
validator (`PacketParser.checkForMissingHeaders`, an external collaborator
that only warns). -/
def parseHeaders (data : String) (st : TState) : TState × HandlerAction :=
  let st' := setHeadersFromString data st
  (st', .parsedHeaders st'.headers)

/-- Embeds `parseData` in `DataRelay.js`: decode the row via
`setCurrentStateFromString`, then `TelemetryData.emitPackets()` — called with
no argument in the source, so `_.each(undefined, …)` iterates nothing — and
clear the `TIMEOUT_DATA_RELAY` status (not tracked in `TState`). -/
def parseData (data : String) (t : Nat) (st : TState) : TState × HandlerAction :=
  (setCurrentStateFromString data t st, .parsedData)

/-- The `data` event handler installed by `connectTCP`: a falsy frame
(`!data`) is dropped with `Logger.error`; otherwise the frame is coerced with
`toString()` and parsed as a header line when `TelemetryData.getHeaders()` is
empty, as a data line otherwise. -/
def dataHandler (frame : JSVal) (t : Nat) (st : TState) : TState × HandlerAction :=
  if truthy frame = false then (st, .droppedWithError)
  else
    let data := jsToString frame
    if st.headers.length = 0 then parseHeaders data st
    else parseData data t st

end DataRelay

namespace Commands

/-- The state the `Commands` singleton can observe and affect:
whether `Network.connections['data_relay']` exists, the strings written to
that connection, and the count of `Logger.error`/`Logger.warn` reports. -/
structure CState where
  connExists : Bool
  written : List String
  loggedErrors : Nat
deriving DecidableEq, Repr

/-- Embeds `Commands.checkConnection`: true iff `Network.connections['data_relay']`
exists (warns otherwise; the warning is not tracked). -/
def checkConnection (st : CState) : Bool := st.connExists

/-- Embeds `Commands.sendCommand(command, value)`: writes `command + ':' + value +
'\r\n'` to the data relay connection. -/
def sendCommand (command : String) (value : JSVal) (st : CState) : CState :=
  { st with written := st.written ++ [command ++ ":" ++ jsToString value ++ "\r\n"] }

/-- Embeds `Commands.sendRoll(roll)`: only when `checkConnection()` holds, and then
only when `Validator.isValidRoll(roll)` holds, write the `set_rollAngle`
command; an invalid roll is reported via `Logger.error` instead. -/
def sendRoll (roll : JSVal) (st : CState) : CState :=
  if checkConnection st then
    if Validator.isValidRoll roll then sendCommand "set_rollAngle" roll st
    else { st with loggedErrors := st.loggedErrors + 1 }
  else st

end Commands

namespace TelemetryData

/-- A listener registered on the `TelemetryData` event emitter: its identity,
the event (Packet Category) name it subscribed to, and whether its callback
throws on a given payload. Payloads have type `α`. -/
structure Listener (α : Type) where
  id : Nat
  event : String
  throws : α → Bool

/-- One callback invocation during dispatch: which listener was called, on
which event name, with which payload, and whether the callback threw. -/
structure Delivery (α : Type) where
  id : Nat
  event : String
  payload : α
  threw : Bool
deriving DecidableEq, Repr

/-- Embeds `TelemetryData.emitPackets(packets)`:
`_.each(packets, function (packet_data, packet_name) { this.emit(packet_name, packet_data); })`.
The iteratee is a plain `function` expression — no `bind`, no context argument
to `_.each`, and the module is sloppy mode — so `this` inside it is the global
object, not the emitter instance; `this.emit` is `undefined`, and the first
iteration throws `TypeError: this.emit is not a function` before any
registered listener's callback is invoked. Hence a non-empty packets object
delivers nothing and the TypeError escapes; an empty (or `undefined`) packets
object iterates zero times and returns normally. The result pairs the
listener invocations actually performed (always none) with whether an
exception escaped; the registered-listener list is a parameter so theorems
can speak about what listeners do (not) receive. -/
def emitPackets {α : Type} (ls : List (Listener α))
    (packets : List (String × α)) : List (Delivery α) × Bool :=
  match ls, packets with
  | _, [] => ([], false)
  | _, _ :: _ => ([], true)

/-- The event dispatch that `emitPackets`'s own JSDoc (and the spec) describes
— "this will emit a 'packet_name' and 'packet_name2' events each with their
respective data": for each category entry in order, every registered listener
of that category is invoked with the entry's payload. Used only to state what
the code fails to do at the code_bug's failing input. -/
def documentedDispatch {α : Type} (ls : List (Listener α))
    (packets : List (String × α)) : List (Delivery α) :=
  packets.flatMap (fun np =>
    (ls.filter (fun l => l.event = np.1)).map (fun l => ⟨l.id, l.event, np.2, l.throws np.2⟩))

end TelemetryData

namespace DataRelay

/-- An IPv4 address as four octets (each `< 256`). -/
structure IPv4 where
  a : Nat
  b : Nat
  c : Nat
  d : Nat
deriving DecidableEq, Repr

/-- Embeds `ip.not` of the `ip` npm package on one octet: bitwise NOT masked to a
byte (`~x & 0xff`), i.e. `255 - x` for an octet. -/
def ipNotByte (x : Nat) : Nat := 255 - x % 256

/-- Embeds `ip.not(addr)`: octet-wise masked bitwise NOT. -/
def ipNot (m : IPv4) : IPv4 :=
  ⟨ipNotByte m.a, ipNotByte m.b, ipNotByte m.c, ipNotByte m.d⟩

/-- Embeds `ip.or(a, b)`: octet-wise bitwise OR. -/
def ipOr (x y : IPv4) : IPv4 :=
  ⟨Nat.lor x.a y.a, Nat.lor x.b y.b, Nat.lor x.c y.c, Nat.lor x.d y.d⟩

/-- The broadcast-address formula stated by the spec and by the comments in
`findUDP`: `(not subnet mask) or (IP address)`. -/
def broadcastFormula (mask localIP : IPv4) : IPv4 := ipOr (ipNot mask) localIP

/-- Embeds `ip.isV4Format(s)`: `s` matches `/^(\d{1,3}\.){3}\d{1,3}$/` — exactly four
dot-separated groups of one to three decimal digits. -/
def isV4Format (s : String) : Bool :=
  let parts := jsSplit s '.'
  parts.length = 4 && parts.all (fun p =>
    !p.isEmpty && p.length ≤ 3 && p.toList.all Char.isDigit)

/-- The Linux branch of `findUDP`'s match loop: `stdout.match(/(?:Bcast|broadcast):([\d.]*)/g)`
yields full-match strings (`"Bcast:…"`); for each match that passes
`ip.isV4Format`, `connectUDP(matches[i].toString())` is called with the match
itself as the broadcast address. Returns the arguments of the `connectUDP`
calls made. -/
def linuxBroadcasts (ms : List String) : List String :=
  ms.filterMap (fun m => if isV4Format m then some m else none)

/-- Parse a dotted-quad string into an `IPv4` (used only under an
`isV4Format` guard; junk octets are 0). -/
def parseIPv4 (s : String) : IPv4 :=
  match (jsSplit s '.').map (fun p => digitsToNat p.toList) with
  | [a, b, c, d] => ⟨a % 256, b % 256, c % 256, d % 256⟩
  | _ => ⟨0, 0, 0, 0⟩

/-- The Windows branch of `findUDP`'s match loop:
`stdout.match(/(?:Subnet Mask)(?:.| )*: ([\d.]*)/g)` yields full-match
strings (`"Subnet Mask … : …"`); for each match that passes `ip.isV4Format`,
`connectUDP(ip.or(ip.not(matches[i]), localIP).toString())` is called.
Returns the arguments of the `connectUDP` calls made. -/
def windowsBroadcasts (ms : List String) (localIP : IPv4) : List IPv4 :=
  ms.filterMap (fun m =>
    if isV4Format m then some (broadcastFormula (parseIPv4 m) localIP) else none)

/-- The events the `connectUDP` discovery socket can experience after
`listening`: a reply datagram (`message`) or the 1-second `setTimeout`
firing. -/
inductive UdpEvt where
  | msg
  | timer
deriving DecidableEq, Repr

/-- Observable state of one `connectUDP` discovery attempt: the `udp_open`
flag, whether the socket handle is closed, how many times `server.close()`
was called, how many times `TIMEOUT_UDP` was set, how many times
`connectTCP` was initiated, and whether a `close` event is queued
(`process.nextTick`) but not yet delivered. -/
structure UdpState where
  udp_open : Bool
  socketClosed : Bool
  closeCalls : Nat
  timeoutStatusSets : Nat
  connectTCPCalls : Nat
  pendingCloseEvt : Bool
deriving DecidableEq, Repr

/-- State right after the `listening` handler ran (`udp_open = true`, the
discovery datagram broadcast, the 1-second timer armed). -/
def udpInit : UdpState := ⟨true, false, 0, 0, 0, false⟩

/-- Drain the microtask queue after a macrotask: Node emits the dgram `close`
event via `process.nextTick`, which runs before any later timer or I/O
callback; the handler sets `udp_open = false`. -/
def drainMicro (st : UdpState) : UdpState :=
  if st.pendingCloseEvt then { st with udp_open := false, pendingCloseEvt := false }
  else st

/-- One macrotask of the discovery attempt, followed by the microtask drain.
`message`: only deliverable while the socket is open; the handler starts
`connectTCP` and calls `server.close()`. `timer`: the `setTimeout` callback;
only if `udp_open` is still true does it set `TIMEOUT_UDP` and call
`server.close()`. -/
def udpStep (st : UdpState) : UdpEvt → UdpState
  | .msg =>
    if st.socketClosed then st
    else drainMicro { st with
      connectTCPCalls := st.connectTCPCalls + 1
      closeCalls := st.closeCalls + 1
      socketClosed := true
      pendingCloseEvt := true }
  | .timer =>
    if st.udp_open then
      drainMicro { st with
        timeoutStatusSets := st.timeoutStatusSets + 1
        closeCalls := st.closeCalls + 1
        socketClosed := true
        pendingCloseEvt := true }
    else st

/-- Run a discovery attempt over a schedule of macrotask events. -/
def udpRun (evts : List UdpEvt) : UdpState := evts.foldl udpStep udpInit

end DataRelay

/-- C8: `setHeadersFromString` splits its input on the comma delimiter, trims
surrounding whitespace from every token, preserves token order, replaces any
prior Header List (the result is independent of it, and no other field is
touched); in particular `"a, b ,c"` yields `["a","b","c"]`. -/
theorem c8_setHeadersFromString (s : String) (st st' : TelemetryData.TState) :
    (TelemetryData.setHeadersFromString s st).headers = (jsSplit s ',').map jsTrim
    ∧ (TelemetryData.setHeadersFromString s st).headers
        = (TelemetryData.setHeadersFromString s st').headers
    ∧ (TelemetryData.setHeadersFromString s st).received = st.received
    ∧ (TelemetryData.setHeadersFromString s st).current_state = st.current_state
    ∧ (TelemetryData.setHeadersFromString s st).state_history = st.state_history
    ∧ (TelemetryData.setHeadersFromString s st).sent = st.sent
    ∧ (TelemetryData.setHeadersFromString "a, b ,c" st).headers = ["a", "b", "c"] := by
  refine ⟨rfl, rfl, rfl, rfl, rfl, rfl, ?_⟩
  show (jsSplit "a, b ,c" ',').map jsTrim = ["a", "b", "c"]
  decide

/-- C10: `isValidRoll`/`isValidPitch` accept exactly the values that are
neither `undefined` nor `null`, pass `!isNaN`, and coerce to a number in
`[-180, 180]`; the empty string and numeric strings are accepted
(`Number("")` is 0); `isValidNumber` yields `undefined` (never `false`) on
rejected inputs. -/
theorem c10_validator_roll_pitch :
    (∀ v : JSVal, Validator.isValidRoll v = true ↔
      (v ≠ .undefined ∧ v ≠ .null ∧ jsIsNaN v = false ∧
        ∃ q : ℚ, toNumber v = some q ∧ -180 ≤ q ∧ q ≤ 180))
    ∧ (∀ v : JSVal, Validator.isValidPitch v = Validator.isValidRoll v)
    ∧ Validator.isValidRoll (.str "") = true
    ∧ Validator.isValidRoll (.str "45.5") = true
    ∧ Validator.isValidRoll (.str "200") = false
    ∧ (∀ v : JSVal, Validator.isValidNumber v = some true ∨
        Validator.isValidNumber v = none) := by
  refine ⟨?_, fun v => rfl, by decide, by decide, by decide, ?_⟩
  · intro v
    unfold Validator.isValidRoll Validator.isValidNumber
    rcases hnum : toNumber v with _ | q
    · have hnan : jsIsNaN v = true := by simp [jsIsNaN, hnum]
      simp [hnan, hnum, Validator.numGE]
    · have hnan : jsIsNaN v = false := by simp [jsIsNaN, hnum]
      by_cases hu : v = .undefined
      · subst hu; simp [toNumber] at hnum
      · by_cases hn : v = .null
        · subst hn; simp [hnan]
        · simp [hu, hn, hnan, hnum, Validator.numGE, Validator.numLE, and_assoc]
  · intro v
    unfold Validator.isValidNumber
    split_ifs <;> simp

/-- C9: `sendRoll(r)` writes `"set_rollAngle:" + r` (CRLF-terminated) to the
data relay connection exactly when the connection exists and
`Validator.isValidRoll(r)` accepts `r`; otherwise nothing is written. -/
theorem c9_sendRoll (roll : JSVal) (st : Commands.CState) :
    (Commands.sendRoll roll st).written =
      st.written ++
        (if Commands.checkConnection st && Validator.isValidRoll roll
         then ["set_rollAngle:" ++ jsToString roll ++ "\r\n"] else [])
    ∧ ((Commands.sendRoll roll st).written ≠ st.written ↔
        (st.connExists = true ∧ Validator.isValidRoll roll = true)) := by
  unfold Commands.sendRoll Commands.sendCommand Commands.checkConnection
  by_cases hc : st.connExists
  · by_cases hv : Validator.isValidRoll roll
    · simp [hc, hv]
    · simp [hc, hv]
  · simp [hc]

/-- C7 counterexample: the frame `42` (a number, hence not a string and not
blank-falsy) is NOT discarded by the data handler — it is coerced with
`toString()` and parsed as a header line, mutating the Header List from `[]`
to `["42"]`, contradicting the claim that every non-string frame is discarded
without mutation. -/
theorem c7_counterexample :
    TelemetryData.initTState.headers = []
    ∧ (DataRelay.dataHandler (.num (some 42)) 0 TelemetryData.initTState).2
        ≠ DataRelay.HandlerAction.droppedWithError
    ∧ (DataRelay.dataHandler (.num (some 42)) 0 TelemetryData.initTState).1.headers
        = ["42"] := by
  decide

/-- C7 (amended): every falsy frame (`""`, `null`, `undefined`, `NaN`, `0`,
`false`) is discarded with an error report and mutates neither the Header
List nor the Telemetry History; a truthy non-string frame is instead coerced
with `toString()` and processed as a normal frame. -/
theorem c7_falsy_frame_discarded (frame : JSVal) (t : Nat)
    (st : TelemetryData.TState) (h : truthy frame = false) :
    DataRelay.dataHandler frame t st = (st, .droppedWithError) := by
  unfold DataRelay.dataHandler
  rw [h]
  simp

/-- C7 witness: the blank frame `""` is falsy and is dropped unchanged. -/
theorem c7_falsy_frame_discarded_witness :
    truthy (.str "") = false
    ∧ DataRelay.dataHandler (.str "") 0 TelemetryData.initTState
        = (TelemetryData.initTState, .droppedWithError) :=
  ⟨by decide, c7_falsy_frame_discarded (.str "") 0 TelemetryData.initTState (by decide)⟩

/-- C5: discovery never derives the broadcast address the spec (and the
code's own comments) prescribe. The regex matches retain their textual
prefixes (`"Bcast:…"`, `"Subnet Mask … : …"`), so `ip.isV4Format` rejects
every match and `connectUDP` is never invoked on either platform branch —
while the prescribed formula `(not mask) or localIP` on the same interface
data yields `192.168.1.255`. The Linux branch would in any case pass the
matched text verbatim rather than evaluate the formula. -/
theorem c5_discovery_broadcast_bug :
    DataRelay.linuxBroadcasts ["Bcast:192.168.1.255"] = []
    ∧ DataRelay.windowsBroadcasts
        ["Subnet Mask . . . . . . . . . . . : 255.255.255.0"] ⟨192, 168, 1, 10⟩ = []
    ∧ DataRelay.broadcastFormula ⟨255, 255, 255, 0⟩ ⟨192, 168, 1, 10⟩ = ⟨192, 168, 1, 255⟩
    ∧ DataRelay.isV4Format "192.168.1.255" = true
    ∧ DataRelay.isV4Format "Bcast:192.168.1.255" = false
    ∧ DataRelay.isV4Format "Subnet Mask . . . . . . . . . . . : 255.255.255.0" = false := by
  decide

/-- C1: with Header List `["lat","lon","alt"]`, the data frame
`"45.5,-80.2,120"` decodes to the snapshot
`{lat:"45.5", lon:"-80.2", alt:"120"}` (scalar value tokens in header order),
which becomes `current_state`, is appended to `state_history` exactly once,
and whose raw (timestamp, text) pair is appended to `received` exactly once;
no other field changes. -/
theorem c1_data_frame_decode (st : TelemetryData.TState) (t : Nat)
    (h : st.headers = ["lat", "lon", "alt"]) :
    DataRelay.dataHandler (.str "45.5,-80.2,120") t st =
      ({ st with
          current_state := [("lat", "45.5"), ("lon", "-80.2"), ("alt", "120")]
          state_history := st.state_history
            ++ [[("lat", "45.5"), ("lon", "-80.2"), ("alt", "120")]]
          received := st.received ++ [(t, "45.5,-80.2,120")] },
        .parsedData) := by
  unfold DataRelay.dataHandler DataRelay.parseData TelemetryData.setCurrentStateFromString
  rw [h]
  simp [truthy, jsToString]
  decide

/-- C1 witness: concrete run from a state holding the headers. -/
theorem c1_data_frame_decode_witness :
    ({ TelemetryData.initTState with
        headers := ["lat", "lon", "alt"] } : TelemetryData.TState).headers
      = ["lat", "lon", "alt"]
    ∧ DataRelay.dataHandler (.str "45.5,-80.2,120") 5
        { TelemetryData.initTState with headers := ["lat", "lon", "alt"] } =
      ({ TelemetryData.initTState with
          headers := ["lat", "lon", "alt"]
          current_state := [("lat", "45.5"), ("lon", "-80.2"), ("alt", "120")]
          state_history := [[("lat", "45.5"), ("lon", "-80.2"), ("alt", "120")]]
          received := [(5, "45.5,-80.2,120")] },
        .parsedData) := by
  refine ⟨rfl, ?_⟩
  have := c1_data_frame_decode
    { TelemetryData.initTState with headers := ["lat", "lon", "alt"] } 5 rfl
  rw [this]
  rfl

/-- C2: for every truthy (non-blank) inbound frame, the handler parses it as
a header frame exactly when the Header List is empty — splitting on the
delimiter, trimming each field, storing the result as the new Header List and
handing that same list to the Header Validator — and as a data frame exactly
when the Header List is non-empty; hence a frame is accepted as a data row
only when the Header List is non-empty. -/
theorem c2_frame_dispatch (frame : JSVal) (t : Nat) (st : TelemetryData.TState)
    (h : truthy frame = true) :
    (st.headers = [] →
      DataRelay.dataHandler frame t st = DataRelay.parseHeaders (jsToString frame) st
      ∧ (DataRelay.dataHandler frame t st).1.headers
          = (jsSplit (jsToString frame) ',').map jsTrim
      ∧ (DataRelay.dataHandler frame t st).2
          = .parsedHeaders ((jsSplit (jsToString frame) ',').map jsTrim))
    ∧ (st.headers ≠ [] →
      DataRelay.dataHandler frame t st = DataRelay.parseData (jsToString frame) t st
      ∧ (DataRelay.dataHandler frame t st).2 = .parsedData)
    ∧ ((DataRelay.dataHandler frame t st).2 = .parsedData → st.headers ≠ []) := by
  have hd : DataRelay.dataHandler frame t st =
      (if st.headers.length = 0 then DataRelay.parseHeaders (jsToString frame) st
       else DataRelay.parseData (jsToString frame) t st) := by
    unfold DataRelay.dataHandler
    rw [h]
    simp
  by_cases he : st.headers = []
  · have hlen : st.headers.length = 0 := by simp [he]
    rw [hd, if_pos hlen]
    refine ⟨fun _ => ⟨rfl, ?_, ?_⟩, fun hne => absurd he hne, fun hact => ?_⟩
    · simp [DataRelay.parseHeaders, TelemetryData.setHeadersFromString]
    · simp [DataRelay.parseHeaders, TelemetryData.setHeadersFromString]
    · simp [DataRelay.parseHeaders] at hact
  · have hlen : ¬ st.headers.length = 0 := by simpa using he
    rw [hd, if_neg hlen]
    exact ⟨fun habs => absurd habs he, fun _ => ⟨rfl, rfl⟩, fun _ => he⟩

/-- C2 witness: a header-line frame on an empty Header List. -/
theorem c2_frame_dispatch_witness :
    truthy (.str "lat, lon ,alt") = true
    ∧ (DataRelay.dataHandler (.str "lat, lon ,alt") 0 TelemetryData.initTState).2
        = .parsedHeaders ["lat", "lon", "alt"] := by
  refine ⟨by decide, ?_⟩
  have h := (c2_frame_dispatch (.str "lat, lon ,alt") 0 TelemetryData.initTState
    (by decide)).1 rfl
  rw [h.2.2]
  decide

lemma udpStep_closed (st : DataRelay.UdpState) (h1 : st.socketClosed = true)
    (h2 : st.udp_open = false) (e : DataRelay.UdpEvt) :
    DataRelay.udpStep st e = st := by
  cases e <;> simp [DataRelay.udpStep, h1, h2]

lemma udpFoldl_closed (evts : List DataRelay.UdpEvt) (st : DataRelay.UdpState)
    (h1 : st.socketClosed = true) (h2 : st.udp_open = false) :
    evts.foldl DataRelay.udpStep st = st := by
  induction evts with
  | nil => rfl
  | cons e es ih => rw [List.foldl_cons, udpStep_closed st h1 h2 e]; exact ih

lemma udpStep_inv (st : DataRelay.UdpState)
    (h : st.pendingCloseEvt = false ∧ st.timeoutStatusSets ≤ 1 ∧ st.closeCalls ≤ 1 ∧
      (st.socketClosed = false →
        st.closeCalls = 0 ∧ st.timeoutStatusSets = 0 ∧ st.udp_open = true) ∧
      (st.socketClosed = true → st.udp_open = false))
    (e : DataRelay.UdpEvt) :
    (DataRelay.udpStep st e).pendingCloseEvt = false
    ∧ (DataRelay.udpStep st e).timeoutStatusSets ≤ 1
    ∧ (DataRelay.udpStep st e).closeCalls ≤ 1
    ∧ ((DataRelay.udpStep st e).socketClosed = false →
        (DataRelay.udpStep st e).closeCalls = 0
        ∧ (DataRelay.udpStep st e).timeoutStatusSets = 0
        ∧ (DataRelay.udpStep st e).udp_open = true)
    ∧ ((DataRelay.udpStep st e).socketClosed = true →
        (DataRelay.udpStep st e).udp_open = false) := by
  obtain ⟨hp, hts, hcc, hopenInv, hclInv⟩ := h
  cases hsc : st.socketClosed
  · obtain ⟨h0, hs0, ho⟩ := hopenInv hsc
    cases e <;> simp [DataRelay.udpStep, DataRelay.drainMicro, hsc, ho, h0, hs0]
  · have ho := hclInv hsc
    rw [udpStep_closed st hsc ho]
    exact ⟨hp, hts, hcc, fun hf => (hopenInv hf), fun ht => ho⟩

lemma udpFoldl_inv : ∀ (evts : List DataRelay.UdpEvt) (st : DataRelay.UdpState),
    (st.pendingCloseEvt = false ∧ st.timeoutStatusSets ≤ 1 ∧ st.closeCalls ≤ 1 ∧
      (st.socketClosed = false →
        st.closeCalls = 0 ∧ st.timeoutStatusSets = 0 ∧ st.udp_open = true) ∧
      (st.socketClosed = true → st.udp_open = false)) →
    (evts.foldl DataRelay.udpStep st).timeoutStatusSets ≤ 1
    ∧ (evts.foldl DataRelay.udpStep st).closeCalls ≤ 1
  | [], st, h => ⟨h.2.1, h.2.2.1⟩
  | e :: es, st, h => by
    rw [List.foldl_cons]
    exact udpFoldl_inv es (DataRelay.udpStep st e) (udpStep_inv st h e)

/-- C6: a discovery attempt whose 1-second timer fires with no reply received
closes its socket and sets the `TIMEOUT_UDP` status, each exactly once, no
matter what happens afterwards; and over every possible schedule of reply
and timer events (the dgram `close` event being delivered on the microtask
queue, before any later timer callback), `server.close()` is never called
twice and the timeout status is never set twice. -/
theorem c6_discovery_timeout :
    (∀ post : List DataRelay.UdpEvt,
      (DataRelay.udpRun (.timer :: post)).closeCalls = 1
      ∧ (DataRelay.udpRun (.timer :: post)).timeoutStatusSets = 1)
    ∧ (∀ evts : List DataRelay.UdpEvt,
      (DataRelay.udpRun evts).closeCalls ≤ 1
      ∧ (DataRelay.udpRun evts).timeoutStatusSets ≤ 1) := by
  constructor
  · intro post
    have h1 : DataRelay.udpStep DataRelay.udpInit .timer
        = ⟨false, true, 1, 1, 0, false⟩ := by decide
    have h2 : DataRelay.udpRun (.timer :: post)
        = (⟨false, true, 1, 1, 0, false⟩ : DataRelay.UdpState) := by
      show (DataRelay.UdpEvt.timer :: post).foldl DataRelay.udpStep DataRelay.udpInit
        = (⟨false, true, 1, 1, 0, false⟩ : DataRelay.UdpState)
      rw [List.foldl_cons, h1]
      exact udpFoldl_closed post _ rfl rfl
    rw [h2]
    exact ⟨rfl, rfl⟩
  · intro evts
    have h := udpFoldl_inv evts DataRelay.udpInit
      ⟨rfl, by decide, by decide, fun _ => ⟨rfl, rfl, rfl⟩, fun habs => absurd habs (by decide)⟩
    exact ⟨h.2, h.1⟩

/-- C3: the claim is the behaviour `emitPackets`'s own JSDoc documents, but
the code never performs it: the `_.each` iteratee loses `this`, so for the
JSDoc's own usage — a listener registered for a category and a non-empty
categorized payload — the call throws a `TypeError` before any listener is
invoked and delivers nothing, where the documented dispatch would have
delivered that category's payload to the registered listener; only the empty
payload returns without an exception. -/
theorem c3_emitPackets_bug :
    TelemetryData.emitPackets
        [⟨1, "aircraft_position", fun _ => false⟩]
        [("aircraft_position", (7 : Nat))]
      = ([], true)
    ∧ TelemetryData.documentedDispatch
        [⟨1, "aircraft_position", fun _ => false⟩]
        [("aircraft_position", (7 : Nat))]
      = [⟨1, "aircraft_position", 7, false⟩]
    ∧ TelemetryData.emitPackets
        ([⟨1, "aircraft_position", fun _ => false⟩] : List (TelemetryData.Listener Nat))
        [] = ([], false) := by
  decide

/-- C4 counterexample: listeners 1 (throwing) and 2 on `aircraft_position`
and listener 3 on `aircraft_status` are registered and payloads for both
categories are dispatched, yet the delivery trace is empty with an exception
escaping: the remaining listeners 2 and 3 do not receive their payloads — no
listener is ever invoked, the lost-`this` `TypeError` fires first —
contradicting the claim that they still receive them. -/
theorem c4_counterexample :
    TelemetryData.emitPackets
        [⟨1, "aircraft_position", fun _ => true⟩,
         ⟨2, "aircraft_position", fun _ => false⟩,
         ⟨3, "aircraft_status", fun _ => false⟩]
        [("aircraft_position", (7 : Nat)), ("aircraft_status", 9)]
      = ([], true) := by
  decide

/-- C4 (amended): whether or not any listener throws, `emitPackets` never
delivers a payload to any listener: the `_.each` callback's `this` is the
global object, so a non-empty categorized payload raises `TypeError:
this.emit is not a function` at its first entry, before any listener —
sibling or otherwise — is invoked, and the exception escapes; only an empty
payload returns without an exception. -/
theorem c4_dispatch_aborts_before_listeners {α : Type}
    (ls : List (TelemetryData.Listener α)) (packets : List (String × α)) :
    (TelemetryData.emitPackets ls packets).1 = []
    ∧ ((TelemetryData.emitPackets ls packets).2 = true ↔ packets ≠ []) := by
  cases packets <;> simp [TelemetryData.emitPackets]
